import Mathlib

/-!
# lubyk/media : frame buffer and frame-ready callbacks

Shallow embedding of

* `include/video/Buffer.h`  : `video::Buffer` (constructor, destructor, `frameData`,
  `frameSize`, `frameInfo`, `allocateFrame`);
* `include/video/Camera.h`, `include/video/Decoder.h`, `include/media/Decoder.h` :
  the inline `newFrame()` callbacks;
* `nextFrame()` of the two decoders, which the headers only declare: its model (namespace
  `capture`) follows the specification and calls the `newFrame()` of the sources.

Conventions.

* A pointer is a natural number, `0` being `NULL`.
* `int` is a 32 bit two's complement integer.  The source multiplies `int`s without any
  check; a product that leaves the `int` range is undefined behaviour in C++ and is modelled
  by the wrap-around that the usual targets compute (`wrapInt`).
* `size_t` is 64 bits wide (`toSizeT`).
* `malloc` and `free` belong to the C library: the value returned by `malloc` is an input of
  the call, and every call to either is written to a list of `HeapEvent`s.
* A `lua_State` is the list of the values on its stack, the top being the last element.
* `dub_pushcallback` and `dub_call` come from the binding library `dub`, whose header is not
  among the sources; they are modelled as the lookup of the one function registered under a
  name and as a call written to a list of `dub.Call`s.
-/

namespace lua

/-- The Lua values that the code under study pushes on a stack. -/
inductive Value where
  | number (n : Int)
  | lightuserdata (p : Nat)
  | func (f : Nat)
  | userdata (u : Nat)
  | nil
  deriving DecidableEq, Repr

/-- A `lua_State`, reduced to its stack (top of the stack last). -/
abbrev State := List Value

/-- The C function `lua_pushnumber`. -/
def pushnumber (L : State) (n : Int) : State := L ++ [Value.number n]

/-- The C function `lua_pushlightuserdata`. -/
def pushlightuserdata (L : State) (p : Nat) : State := L ++ [Value.lightuserdata p]

end lua

/-- The value of an `int` expression whose mathematical value is `n` (32 bit wrap-around). -/
def wrapInt (n : Int) : Int := (n + 2 ^ 31) % 2 ^ 32 - 2 ^ 31

/-- The `int` product `a * b`. -/
def imul (a b : Int) : Int := wrapInt (a * b)

/-- Conversion of an `int` to `size_t` (reduction modulo `2 ^ 64`). -/
def toSizeT (n : Int) : Nat := (n % 2 ^ 64).toNat

/-- The values an `int` can hold. -/
def InInt (n : Int) : Prop := -(2 ^ 31) ≤ n ∧ n < 2 ^ 31

instance (n : Int) : Decidable (InInt n) := by unfold InInt; exact inferInstance

/-- A call to the C allocator made by the code. -/
inductive HeapEvent where
  | malloc (len : Nat) (ret : Nat)
  | free (p : Nat)
  deriving DecidableEq, Repr

/-- How a call to a `bool` method ends: it returns a value or throws `dub::Exception`. -/
inductive Outcome where
  | returned (value : Bool)
  | raised (what : String)
  deriving DecidableEq, Repr

namespace video

/-- The data members of `video::Buffer`. -/
structure Buffer where
  frame_ : Nat
  frame_len_ : Nat
  width_ : Int
  height_ : Int
  elem_size_ : Int
  padding_ : Int
  deriving DecidableEq, Repr

namespace Buffer

/-- The constructor `Buffer()`.  `padding_` is not in the initialiser list: its value is
whatever the storage held, given here as an argument. -/
def new (padding : Int) : Buffer :=
  { frame_ := 0, frame_len_ := 0, width_ := 0, height_ := 0, elem_size_ := 0,
    padding_ := padding }

/-- The destructor `~Buffer()`: `if (frame_) free(frame_);`. -/
def destroy (b : Buffer) : List HeapEvent :=
  if b.frame_ ≠ 0 then [HeapEvent.free b.frame_] else []

/-- The method `frameData(lua_State *L)`: the number of results and the stack left behind. -/
def frameData (b : Buffer) (L : lua.State) : Nat × lua.State :=
  if b.frame_ = 0 then (0, L)
  else (1, lua.pushlightuserdata L b.frame_)

/-- The method `frameSize()`. -/
def frameSize (b : Buffer) : Nat := b.frame_len_

/-- The method `frameInfo(lua_State *L)`: the number of results and the stack left behind. -/
def frameInfo (b : Buffer) (L : lua.State) : Nat × lua.State :=
  (3, lua.pushnumber (lua.pushnumber (lua.pushnumber L b.width_) b.height_) b.elem_size_)

/-- The message of the exception thrown by `allocateFrame`. -/
def reallocMessage : String := "Cannot resize or reallocate frame."

/-- The method `allocateFrame(int w, int h, int elem)`.  `mallocRet` is what `malloc` returns
if it is called.  The result is the outcome of the call, the object afterwards and the
allocator calls made. -/
def allocateFrame (b : Buffer) (w h elem : Int) (mallocRet : Nat) :
    Outcome × Buffer × List HeapEvent :=
  if b.frame_ ≠ 0 then
    (Outcome.raised reallocMessage, b, [])
  else
    let len : Nat := toSizeT (imul (imul w h) elem)
    let b1 : Buffer := { b with frame_ := mallocRet }
    if b1.frame_ ≠ 0 then
      (Outcome.returned true,
        { b1 with frame_len_ := len, width_ := w, height_ := h, elem_size_ := elem },
        [HeapEvent.malloc len mallocRet])
    else
      (Outcome.returned false, b1, [HeapEvent.malloc len mallocRet])

end Buffer

/-- One call on a `Buffer` object. -/
inductive Op where
  | allocateFrame (w h elem : Int) (mallocRet : Nat)
  | frameData
  | frameSize
  | frameInfo
  deriving DecidableEq, Repr

/-- What a call gave back to its caller. -/
inductive Obs where
  | alloc (o : Outcome)
  | data (n : Nat) (pushed : lua.State)
  | size (n : Nat)
  | info (n : Nat) (pushed : lua.State)
  deriving DecidableEq, Repr

/-- One call: what the caller sees, the object afterwards, the allocator calls made.  The
accessors that take a `lua_State` are given an empty stack. -/
def step (b : Buffer) : Op → Obs × Buffer × List HeapEvent
  | Op.allocateFrame w h elem p =>
      let r := b.allocateFrame w h elem p
      (Obs.alloc r.1, r.2.1, r.2.2)
  | Op.frameData => (Obs.data (b.frameData []).1 (b.frameData []).2, b, [])
  | Op.frameSize => (Obs.size b.frameSize, b, [])
  | Op.frameInfo => (Obs.info (b.frameInfo []).1 (b.frameInfo []).2, b, [])

/-- The record of a sequence of calls. -/
structure Run where
  buffer : Buffer
  obs : List Obs
  heap : List HeapEvent
  deriving DecidableEq, Repr

/-- A sequence of calls on one object, a thrown exception being caught by the caller. -/
def run (b : Buffer) : List Op → Run
  | [] => { buffer := b, obs := [], heap := [] }
  | op :: ops =>
      let s := step b op
      let r := run s.2.1 ops
      { buffer := r.buffer, obs := s.1 :: r.obs, heap := s.2.2 ++ r.heap }

/-- The allocator calls of a whole lifetime: construction, the calls `ops`, destruction. -/
def lifetime (padding : Int) (ops : List Op) : List HeapEvent :=
  let r := run (Buffer.new padding) ops
  r.heap ++ r.buffer.destroy

/-- The observation "an `allocateFrame` call returned `true`". -/
def allocOk : Obs := Obs.alloc (Outcome.returned true)

/-- Recognises a `free` call. -/
def isFree : HeapEvent → Bool
  | HeapEvent.free _ => true
  | HeapEvent.malloc _ _ => false

/-- Recognises a `malloc` call that returned a non-null pointer. -/
def isMallocOk : HeapEvent → Bool
  | HeapEvent.malloc _ ret => decide (ret ≠ 0)
  | HeapEvent.free _ => false

end video

namespace dub

/-- Modelled from the spec: one invocation of a Lua function made through `dub_call` of
`dub/dub.h`: the function, the arguments it found on the stack (the object `self` first), and
the number of results asked for. -/
structure Call where
  func : Nat
  args : List lua.Value
  nresults : Nat
  deriving DecidableEq, Repr

/-- Modelled from the spec: the base class `dub::Thread` of the binding library (`dub/dub.h`
is not part of the sources).  It is the single-slot observer registration of the
specification: `self` is the Lua object bound to the C++ object, `callbacks` the Lua
functions registered on it by name, `dub_L` the Lua stack used for callbacks and `calls` the
record of the Lua functions invoked so far. -/
structure Thread where
  self : Nat
  callbacks : List (String × Nat)
  dub_L : lua.State
  calls : List Call
  deriving DecidableEq, Repr

namespace Thread

/-- Modelled from the spec: registering an observer under `name`, replacing any previous
one (done from Lua, by assigning a function to the field `name` of the object). -/
def register (t : Thread) (name : String) (f : Nat) : Thread :=
  { t with callbacks := (name, f) :: t.callbacks.filter (fun c => c.1 != name) }

/-- Modelled from the spec: `dub_pushcallback(name)` of `dub/dub.h`.  When a function is
registered under `name` it pushes `<func> <self>` and returns `true`; otherwise it returns
`false` and leaves the stack alone. -/
def dub_pushcallback (t : Thread) (name : String) : Bool × Thread :=
  match t.callbacks.lookup name with
  | none => (false, t)
  | some f =>
      (true, { t with dub_L := t.dub_L ++ [lua.Value.func f, lua.Value.userdata t.self] })

/-- Modelled from the spec: how `dub_call` adjusts the results of the Lua function to the
number asked for (the rule of `lua_call`): extra values are dropped, missing ones are `nil`. -/
def adjustResults (nresults : Nat) (results : List lua.Value) : List lua.Value :=
  (results ++ List.replicate nresults lua.Value.nil).take nresults

/-- Modelled from the spec: `dub_call(nargs, nresults)` of `dub/dub.h`.  The stack ends with
`<func> <arg 1> ... <arg nargs>`; the function is invoked once with these arguments, they are
popped, and the values it returned (`results`), adjusted to `nresults`, are pushed.  A stack
that does not end this way is left alone. -/
def dub_call (t : Thread) (nargs nresults : Nat) (results : List lua.Value) : Thread :=
  let n := t.dub_L.length
  match t.dub_L.drop (n - (nargs + 1)) with
  | lua.Value.func f :: args =>
      if args.length = nargs then
        { t with
          dub_L := t.dub_L.take (n - (nargs + 1)) ++ adjustResults nresults results
          calls := t.calls ++ [{ func := f, args := args, nresults := nresults }] }
      else t
  | _ => t

end Thread

end dub

namespace video

namespace Camera

/-- The callback `Camera::newFrame()`, acting on the `dub::Thread` base of the camera.
`results` is what the Lua function returns if it is called. -/
def newFrame (t : dub.Thread) (results : List lua.Value) : dub.Thread :=
  let r := t.dub_pushcallback "newFrame"
  if !r.1 then r.2
  else r.2.dub_call 1 0 results

end Camera

namespace Decoder

/-- The callback `video::Decoder::newFrame()`, acting on the `dub::Thread` base of the
decoder.  `results` is what the Lua function returns if it is called. -/
def newFrame (t : dub.Thread) (results : List lua.Value) : dub.Thread :=
  let r := t.dub_pushcallback "newFrame"
  if !r.1 then r.2
  else r.2.dub_call 1 0 results

end Decoder

end video

namespace media

namespace Decoder

/-- The callback `media::Decoder::newFrame()`, acting on the `dub::Thread` base of the
decoder.  `results` is what the Lua function returns if it is called. -/
def newFrame (t : dub.Thread) (results : List lua.Value) : dub.Thread :=
  let r := t.dub_pushcallback "newFrame"
  if !r.1 then r.2
  else r.2.dub_call 1 0 results

end Decoder

end media

namespace capture

/-- The lifecycle states of a capture source. -/
inductive Lifecycle where
  | Idle
  | Running
  | Stopped
  deriving DecidableEq, Repr

/-- A frame of an asset: readable, or malformed data. -/
inductive Frame where
  | good (id : Nat)
  | malformed
  deriving DecidableEq, Repr

/-- How a `start` or `nextFrame` call ends. -/
inductive Result where
  | value (b : Bool)
  | DecodeError
  | SourceUnavailable
  deriving DecidableEq, Repr

/-- The two decoder classes: `video::Decoder`, and `media::Decoder` with its `is_image`
constructor argument. -/
inductive Variant where
  | video
  | media (is_image : Bool)
  deriving DecidableEq, Repr

/-- Modelled from the spec: `isImage()` of `media::Decoder`, which the sources only declare.
It is taken to give back the `is_image` flag the decoder was constructed with; a video decoder
is never a single-frame source. -/
def Variant.isImage : Variant → Bool
  | Variant.video => false
  | Variant.media is_image => is_image

/-- Modelled from the spec: the two policies the specification leaves open for the calls that
follow the first `nextFrame()` of a single-frame source: the call re-signals the same frame
(`resignal`), or is a no-op that returns `true` with no new notification (`silent`). -/
inductive ImagePolicy where
  | resignal
  | silent
  deriving DecidableEq, Repr

/-- Modelled from the spec: the state of a pull-driven capture source (`video::Decoder`,
`media::Decoder`), whose `Implementation` class is not part of the sources.  `asset` is the
sequence of frames behind the source descriptor (`none` when it cannot be opened), `pos` the
read position, `thread` the `dub::Thread` base holding the observer, and `fired` the number
of `newFrame()` invocations made so far.  The pixel contents of the frame buffer are not part
of this model. -/
structure Source where
  variant : Variant
  thread : dub.Thread
  state : Lifecycle
  asset : Option (List Frame)
  pos : Nat
  fired : Nat
  deriving DecidableEq, Repr

namespace Source

/-- Modelled from the spec: `start()`.  An asset that cannot be opened fails with
`SourceUnavailable`; otherwise the source becomes (or stays) `Running` with the read position
at the beginning. -/
def start (s : Source) : Result × Source :=
  match s.asset with
  | none => (Result.SourceUnavailable, s)
  | some _ => (Result.value true, { s with state := Lifecycle.Running, pos := 0 })

/-- Modelled from the spec: `stop()`.  A running source becomes `Stopped`; otherwise nothing
happens. -/
def stop (s : Source) : Source :=
  match s.state with
  | Lifecycle.Running => { s with state := Lifecycle.Stopped }
  | _ => s

/-- Modelled from the spec: the frame-ready notification, that is one invocation of the
`newFrame()` callback of the decoder class (taken from the sources). -/
def notify (s : Source) (results : List lua.Value) : Source :=
  match s.variant with
  | Variant.video =>
      { s with thread := video.Decoder.newFrame s.thread results, fired := s.fired + 1 }
  | Variant.media _ =>
      { s with thread := media.Decoder.newFrame s.thread results, fired := s.fired + 1 }

/-- Modelled from the spec: one production cycle of a running source.  A single-frame source
never advances past frame one: once its frame has been produced (`pos` is 1), a further call
returns `true` and, by the policy, re-signals the frame or does nothing.  Otherwise, at the
end of the asset the result is `false` and nothing fires; malformed data fails with
`DecodeError` (the state afterwards is unspecified by the specification and kept as it is
here); a readable frame fires one notification and gives `true`. -/
def produce (policy : ImagePolicy) (s : Source) (frames : List Frame)
    (results : List lua.Value) : Result × Source :=
  if s.variant.isImage = true ∧ 1 ≤ s.pos then
    match policy with
    | ImagePolicy.resignal => (Result.value true, notify s results)
    | ImagePolicy.silent => (Result.value true, s)
  else
    match frames.get? s.pos with
    | none => (Result.value false, s)
    | some Frame.malformed => (Result.DecodeError, s)
    | some (Frame.good _) => (Result.value true, notify { s with pos := s.pos + 1 } results)

/-- Modelled from the spec: `nextFrame()` of `video::Decoder` and `media::Decoder`, declared
in the sources and implemented in the absent `Implementation` classes.  An `Idle` source is
started first; the specification gives the call no behaviour on a `Stopped` source (`none`).
`results` is what the observer returns if it is called. -/
def nextFrame (policy : ImagePolicy) (s : Source) (results : List lua.Value) :
    Option (Result × Source) :=
  match s.state with
  | Lifecycle.Stopped => none
  | Lifecycle.Running =>
      match s.asset with
      | none => some (Result.SourceUnavailable, s)
      | some frames => some (produce policy s frames results)
  | Lifecycle.Idle =>
      match s.asset with
      | none => some (start s)
      | some frames => some (produce policy (start s).2 frames results)

end Source

end capture

/-! ## The frame buffer -/

namespace video

theorem wrapInt_of_inInt (n : Int) (h : InInt n) : wrapInt n = n := by
  unfold InInt at h
  unfold wrapInt
  omega

theorem toSizeT_of_nonneg (n : Int) (h0 : 0 ≤ n) (h1 : n < 2 ^ 31) :
    toSizeT n = n.toNat := by
  unfold toSizeT
  rw [Int.emod_eq_of_lt h0 (by omega)]

/-- The `int` product is an `int` again and agrees with the mathematical product modulo
`2 ^ 32`. -/
theorem imul_spec (a b : Int) : InInt (imul a b) ∧ imul a b % 2 ^ 32 = (a * b) % 2 ^ 32 := by
  unfold imul wrapInt InInt
  generalize a * b = n
  omega

/-- The `int` product of three factors, taken from the left, agrees with the mathematical
product modulo `2 ^ 32`. -/
theorem imul_imul_spec (w h elem : Int) :
    InInt (imul (imul w h) elem)
      ∧ imul (imul w h) elem % 2 ^ 32 = (w * h * elem) % 2 ^ 32 := by
  refine ⟨(imul_spec (imul w h) elem).1, ?_⟩
  have h1 : imul w h ≡ w * h [ZMOD 2 ^ 32] := (imul_spec w h).2
  have h2 : imul (imul w h) elem ≡ imul w h * elem [ZMOD 2 ^ 32] := (imul_spec (imul w h) elem).2
  exact h2.trans (h1.mul_right elem)

/-- An `int` product that fits in an `int`, its first two factors too, is the mathematical
product. -/
theorem imul_imul_of_inInt (w h elem : Int) (h1 : InInt (w * h)) (h2 : InInt (w * h * elem)) :
    imul (imul w h) elem = w * h * elem := by
  have e1 : imul w h = w * h := wrapInt_of_inInt _ h1
  unfold imul at e1 ⊢
  rw [e1]
  exact wrapInt_of_inInt _ h2

/-- Conversion to `size_t` is reduction modulo `2 ^ 64`. -/
theorem toSizeT_cast (n : Int) : ((toSizeT n : Nat) : Int) = n % 2 ^ 64 := by
  unfold toSizeT
  exact Int.toNat_of_nonneg (Int.emod_nonneg _ (by norm_num))

namespace Buffer

theorem allocateFrame_of_allocated (b : Buffer) (w h elem : Int) (p : Nat)
    (hb : b.frame_ ≠ 0) :
    b.allocateFrame w h elem p = (Outcome.raised reallocMessage, b, []) := by
  simp [allocateFrame, hb]

theorem allocateFrame_of_null (b : Buffer) (w h elem : Int) (hb : b.frame_ = 0) :
    b.allocateFrame w h elem 0
      = (Outcome.returned false, b,
          [HeapEvent.malloc (toSizeT (imul (imul w h) elem)) 0]) := by
  cases b
  simp_all [allocateFrame]

theorem allocateFrame_of_pointer (b : Buffer) (w h elem : Int) (p : Nat)
    (hb : b.frame_ = 0) (hp : p ≠ 0) :
    b.allocateFrame w h elem p
      = (Outcome.returned true,
          { frame_ := p, frame_len_ := toSizeT (imul (imul w h) elem), width_ := w,
            height_ := h, elem_size_ := elem, padding_ := b.padding_ },
          [HeapEvent.malloc (toSizeT (imul (imul w h) elem)) p]) := by
  simp [allocateFrame, hb, hp]

theorem allocateFrame_ok_iff (b : Buffer) (w h elem : Int) (p : Nat) :
    (b.allocateFrame w h elem p).1 = Outcome.returned true ↔ b.frame_ = 0 ∧ p ≠ 0 := by
  by_cases hb : b.frame_ = 0
  · by_cases hp : p = 0
    · subst hp
      simp [allocateFrame_of_null b w h elem hb, hb]
    · simp [allocateFrame_of_pointer b w h elem p hb hp, hb, hp]
  · simp [allocateFrame_of_allocated b w h elem p hb, hb]

end Buffer

theorem step_of_allocated (b : Buffer) (op : Op) (hb : b.frame_ ≠ 0) :
    (step b op).2.1 = b ∧ (step b op).2.2 = [] ∧ (step b op).1 ≠ allocOk := by
  cases op <;> simp [step, Buffer.allocateFrame_of_allocated _ _ _ _ _ hb, allocOk]

theorem step_accessor (b : Buffer) (op : Op) (hop : ∀ w h elem p, op ≠ Op.allocateFrame w h elem p) :
    (step b op).2.1 = b ∧ (step b op).2.2 = [] ∧ (step b op).1 ≠ allocOk := by
  cases op with
  | allocateFrame w h elem p => exact absurd rfl (hop w h elem p)
  | frameData => simp [step, allocOk]
  | frameSize => simp [step, allocOk]
  | frameInfo => simp [step, allocOk]

theorem run_of_allocated (b : Buffer) (ops : List Op) (hb : b.frame_ ≠ 0) :
    (run b ops).buffer = b ∧ (run b ops).heap = [] ∧ (run b ops).obs.count allocOk = 0 := by
  induction ops with
  | nil => simp [run]
  | cons op ops ih =>
      obtain ⟨h1, h2, h3⟩ := step_of_allocated b op hb
      obtain ⟨i1, i2, i3⟩ := ih
      simp only [run, h1, h2, i1, i2, List.append_nil, true_and]
      rw [List.count_cons_of_ne (Ne.symm h3)]
      exact i3

theorem run_append (b : Buffer) (xs ys : List Op) :
    run b (xs ++ ys)
      = { buffer := (run (run b xs).buffer ys).buffer
          obs := (run b xs).obs ++ (run (run b xs).buffer ys).obs
          heap := (run b xs).heap ++ (run (run b xs).buffer ys).heap } := by
  induction xs generalizing b with
  | nil => simp [run]
  | cons x xs ih => simp [run, ih, List.append_assoc]

theorem step_alloc_null (b : Buffer) (w h elem : Int) (hb : b.frame_ = 0) :
    step b (Op.allocateFrame w h elem 0)
      = (Obs.alloc (Outcome.returned false), b,
          [HeapEvent.malloc (toSizeT (imul (imul w h) elem)) 0]) := by
  simp [step, Buffer.allocateFrame_of_null b w h elem hb]

theorem step_alloc_pointer (b : Buffer) (w h elem : Int) (p : Nat) (hb : b.frame_ = 0)
    (hp : p ≠ 0) :
    step b (Op.allocateFrame w h elem p)
      = (allocOk,
          { frame_ := p, frame_len_ := toSizeT (imul (imul w h) elem), width_ := w,
            height_ := h, elem_size_ := elem, padding_ := b.padding_ },
          [HeapEvent.malloc (toSizeT (imul (imul w h) elem)) p]) := by
  simp [step, Buffer.allocateFrame_of_pointer b w h elem p hb hp, allocOk]

theorem run_cons (b : Buffer) (op : Op) (ops : List Op) :
    run b (op :: ops)
      = { buffer := (run (step b op).2.1 ops).buffer
          obs := (step b op).1 :: (run (step b op).2.1 ops).obs
          heap := (step b op).2.2 ++ (run (step b op).2.1 ops).heap } := rfl

theorem run_of_unallocated (b : Buffer) (ops : List Op) (hb : b.frame_ = 0) :
    ((run b ops).buffer = b ∧ (run b ops).obs.count allocOk = 0
        ∧ (run b ops).heap.countP isMallocOk = 0 ∧ (run b ops).heap.countP isFree = 0)
    ∨ ((run b ops).buffer.frame_ ≠ 0 ∧ (run b ops).obs.count allocOk = 1
        ∧ (run b ops).heap.countP isMallocOk = 1 ∧ (run b ops).heap.countP isFree = 0
        ∧ ∃ len, HeapEvent.malloc len (run b ops).buffer.frame_ ∈ (run b ops).heap) := by
  induction ops with
  | nil => left; simp [run]
  | cons op ops ih =>
      by_cases hop : ∃ w h elem p, op = Op.allocateFrame w h elem p
      · obtain ⟨w, h, elem, p, rfl⟩ := hop
        by_cases hp : p = 0
        · subst hp
          have hs := step_alloc_null b w h elem hb
          have hne : Obs.alloc (Outcome.returned false) ≠ allocOk := by simp [allocOk]
          rw [run_cons, hs]
          rcases ih with ⟨i1, i2, i3, i4⟩ | ⟨i1, i2, i3, i4, len, i5⟩
          · left
            refine ⟨i1, ?_, ?_, ?_⟩
            · show List.count allocOk (_ :: (run b ops).obs) = 0
              rw [List.count_cons_of_ne (Ne.symm hne)]
              exact i2
            · show List.countP isMallocOk (_ :: (run b ops).heap) = 0
              simpa [List.countP_cons, isMallocOk] using i3
            · show List.countP isFree (_ :: (run b ops).heap) = 0
              simpa [List.countP_cons, isFree] using i4
          · right
            refine ⟨i1, ?_, ?_, ?_, len, ?_⟩
            · show List.count allocOk (_ :: (run b ops).obs) = 1
              rw [List.count_cons_of_ne (Ne.symm hne)]
              exact i2
            · show List.countP isMallocOk (_ :: (run b ops).heap) = 1
              simpa [List.countP_cons, isMallocOk] using i3
            · show List.countP isFree (_ :: (run b ops).heap) = 0
              simpa [List.countP_cons, isFree] using i4
            · exact List.mem_cons_of_mem _ i5
        · right
          have hs := step_alloc_pointer b w h elem p hb hp
          rw [run_cons, hs]
          obtain ⟨a1, a2, a3⟩ := run_of_allocated
            (Buffer.mk p (toSizeT (imul (imul w h) elem)) w h elem b.padding_) ops hp
          simp only [a1, a2]
          refine ⟨hp, ?_, ?_, ?_, toSizeT (imul (imul w h) elem), ?_⟩
          · rw [List.count_cons_self, a3]
          · simp [List.countP_cons, isMallocOk, hp]
          · simp [List.countP_cons, isFree]
          · simp
      · have hop2 : ∀ w h elem p, op ≠ Op.allocateFrame w h elem p := by
          intro w h elem p he
          exact hop ⟨w, h, elem, p, he⟩
        obtain ⟨s1, s2, s3⟩ := step_accessor b op hop2
        rw [run_cons, s1, s2]
        rcases ih with ⟨i1, i2, i3, i4⟩ | ⟨i1, i2, i3, i4, len, i5⟩
        · left
          refine ⟨i1, ?_, i3, i4⟩
          show List.count allocOk (_ :: (run b ops).obs) = 0
          rw [List.count_cons_of_ne (Ne.symm s3)]
          exact i2
        · right
          refine ⟨i1, ?_, i3, i4, len, i5⟩
          show List.count allocOk (_ :: (run b ops).obs) = 1
          rw [List.count_cons_of_ne (Ne.symm s3)]
          exact i2

theorem run_new_cases (padding : Int) (ops : List Op) :
    ((run (Buffer.new padding) ops).buffer = Buffer.new padding
        ∧ (run (Buffer.new padding) ops).obs.count allocOk = 0
        ∧ (run (Buffer.new padding) ops).heap.countP isMallocOk = 0
        ∧ (run (Buffer.new padding) ops).heap.countP isFree = 0)
    ∨ ((run (Buffer.new padding) ops).buffer.frame_ ≠ 0
        ∧ (run (Buffer.new padding) ops).obs.count allocOk = 1
        ∧ (run (Buffer.new padding) ops).heap.countP isMallocOk = 1
        ∧ (run (Buffer.new padding) ops).heap.countP isFree = 0
        ∧ ∃ len, HeapEvent.malloc len (run (Buffer.new padding) ops).buffer.frame_
            ∈ (run (Buffer.new padding) ops).heap) :=
  run_of_unallocated (Buffer.new padding) ops rfl

/-- C1: once an `allocateFrame` call on a buffer has returned `true`, then, whatever calls
`ops` were made since, a further `allocateFrame(w, h, elem)` (with any arguments, any
allocator answer) throws "Cannot resize or reallocate frame.", calls neither `malloc` nor
`free`, and leaves every data member as the successful call recorded it. -/
theorem allocateFrame_twice_raises (b0 : Buffer) (w0 h0 elem0 : Int) (p0 : Nat)
    (ops : List Op) (w h elem : Int) (p : Nat)
    (hok : (b0.allocateFrame w0 h0 elem0 p0).1 = Outcome.returned true) :
    (run (b0.allocateFrame w0 h0 elem0 p0).2.1 ops).buffer.allocateFrame w h elem p
        = (Outcome.raised "Cannot resize or reallocate frame.",
            (b0.allocateFrame w0 h0 elem0 p0).2.1, [])
      ∧ (b0.allocateFrame w0 h0 elem0 p0).2.1.frameInfo []
        = (3, [lua.Value.number w0, lua.Value.number h0, lua.Value.number elem0]) := by
  obtain ⟨hb, hp⟩ := (Buffer.allocateFrame_ok_iff b0 w0 h0 elem0 p0).1 hok
  have hs := Buffer.allocateFrame_of_pointer b0 w0 h0 elem0 p0 hb hp
  have hne : (b0.allocateFrame w0 h0 elem0 p0).2.1.frame_ ≠ 0 := by
    rw [hs]
    exact hp
  obtain ⟨a1, _, _⟩ := run_of_allocated _ ops hne
  refine ⟨?_, ?_⟩
  · rw [a1]
    exact Buffer.allocateFrame_of_allocated _ w h elem p hne
  · rw [hs]
    simp [Buffer.frameInfo, lua.pushnumber]

/-- C1, the scenario of the specification: `allocateFrame(640,480,4)` succeeds, the following
`allocateFrame(320,240,4)` throws and `frameInfo` still reports 640, 480, 4. -/
theorem allocateFrame_twice_raises_witness :
    ((Buffer.new 0).allocateFrame 640 480 4 4096).1 = Outcome.returned true
    ∧ (((Buffer.new 0).allocateFrame 640 480 4 4096).2.1.allocateFrame 320 240 4 8192).1
        = Outcome.raised "Cannot resize or reallocate frame."
    ∧ ((((Buffer.new 0).allocateFrame 640 480 4 4096).2.1.allocateFrame 320 240 4 8192).2.1.frameInfo
        []).2 = [lua.Value.number 640, lua.Value.number 480, lua.Value.number 4] := by
  have h := allocateFrame_twice_raises (Buffer.new 0) 640 480 4 4096 [] 320 240 4 8192
    (by decide)
  simp only [run] at h
  refine ⟨by decide, ?_, ?_⟩
  · rw [h.1]
  · rw [h.1, h.2]

/-- C2, evaluation at `allocateFrame(32768, 32769, 4)`: the arguments are positive `int`s,
the call returns `true` and the dimensions 32768 x 32769 x 4 are recorded, yet `malloc` was
asked for 131072 bytes and `frameSize()` is 131072, while the product of the dimensions is
4295098368. -/
theorem allocateFrame_product_overflow :
    InInt 32768 ∧ InInt 32769 ∧ InInt 4
    ∧ (Buffer.new 0).allocateFrame 32768 32769 4 4096
        = (Outcome.returned true,
            { frame_ := 4096, frame_len_ := 131072, width_ := 32768, height_ := 32769,
              elem_size_ := 4, padding_ := 0 },
            [HeapEvent.malloc 131072 4096])
    ∧ ((Buffer.new 0).allocateFrame 32768 32769 4 4096).2.1.frameSize = 131072
    ∧ (((Buffer.new 0).allocateFrame 32768 32769 4 4096).2.1.frameInfo []).2
        = [lua.Value.number 32768, lua.Value.number 32769, lua.Value.number 4]
    ∧ (32768 : Int) * 32769 * 4 = 4295098368
    ∧ (((Buffer.new 0).allocateFrame 32768 32769 4 4096).2.1.frameSize : Int)
        ≠ 32768 * 32769 * 4 := by
  decide

/-- When the product of positive dimensions fits in an `int`, a successful `allocateFrame`
leaves `frameSize()` equal to that product. -/
theorem allocateFrame_frameSize_of_fits (b : Buffer) (w h elem : Int) (p : Nat)
    (hw : 0 < w) (hh : 0 < h) (he : 0 < elem) (hfit : w * h * elem < 2 ^ 31)
    (hok : (b.allocateFrame w h elem p).1 = Outcome.returned true) :
    ((b.allocateFrame w h elem p).2.1.frameSize : Int) = w * h * elem := by
  obtain ⟨hb, hp⟩ := (Buffer.allocateFrame_ok_iff b w h elem p).1 hok
  rw [Buffer.allocateFrame_of_pointer b w h elem p hb hp]
  have hwh : 0 < w * h := Int.mul_pos hw hh
  have hpos : 0 < w * h * elem := Int.mul_pos hwh he
  have hle : w * h ≤ w * h * elem := by nlinarith
  have h1 : imul w h = w * h := wrapInt_of_inInt _ ⟨by omega, by omega⟩
  have h2 : imul (imul w h) elem = w * h * elem := by
    unfold imul at h1 ⊢
    rw [h1]
    exact wrapInt_of_inInt _ ⟨by omega, by omega⟩
  show ((toSizeT (imul (imul w h) elem) : Nat) : Int) = w * h * elem
  rw [h2, toSizeT_of_nonneg _ (by omega) hfit]
  exact Int.toNat_of_nonneg (by omega)

/-- C3: on a buffer, constructed and used in any way, that is still unallocated, an
`allocateFrame` whose `malloc` returns `NULL` returns `false` (it does not throw) and leaves
the object as it was: `frame_` is `NULL`, `frameSize()` is 0, `frameInfo()` reports 0, 0, 0;
and a later `allocateFrame` whose `malloc` returns a pointer returns `true`. -/
theorem allocateFrame_malloc_null (padding : Int) (ops : List Op) (w h elem : Int)
    (hun : (run (Buffer.new padding) ops).buffer.frame_ = 0) :
    ((run (Buffer.new padding) ops).buffer.allocateFrame w h elem 0).1
        = Outcome.returned false
      ∧ ((run (Buffer.new padding) ops).buffer.allocateFrame w h elem 0).2.1
        = (run (Buffer.new padding) ops).buffer
      ∧ ((run (Buffer.new padding) ops).buffer.allocateFrame w h elem 0).2.1.frame_ = 0
      ∧ ((run (Buffer.new padding) ops).buffer.allocateFrame w h elem 0).2.1.frameSize = 0
      ∧ ((run (Buffer.new padding) ops).buffer.allocateFrame w h elem 0).2.1.frameInfo []
        = (3, [lua.Value.number 0, lua.Value.number 0, lua.Value.number 0])
      ∧ ∀ (w2 h2 elem2 : Int) (p : Nat), p ≠ 0 →
          (((run (Buffer.new padding) ops).buffer.allocateFrame w h elem 0).2.1.allocateFrame
            w2 h2 elem2 p).1 = Outcome.returned true := by
  have hs := Buffer.allocateFrame_of_null _ w h elem hun
  have hnew : (run (Buffer.new padding) ops).buffer = Buffer.new padding := by
    rcases run_new_cases padding ops with ⟨i1, _⟩ | ⟨i1, _⟩
    · exact i1
    · exact absurd hun i1
  rw [hs]
  refine ⟨rfl, rfl, hun, ?_, ?_, ?_⟩
  · show (run (Buffer.new padding) ops).buffer.frameSize = 0
    rw [hnew]
    rfl
  · show (run (Buffer.new padding) ops).buffer.frameInfo [] = _
    rw [hnew]
    rfl
  · intro w2 h2 elem2 p hp
    exact (Buffer.allocateFrame_ok_iff _ w2 h2 elem2 p).2 ⟨hun, hp⟩

/-- C3 at a concrete input: a new buffer, one failed `allocateFrame(640,480,4)` already made,
then a second one failing in the same way. -/
theorem allocateFrame_malloc_null_witness :
    (run (Buffer.new 0) [Op.allocateFrame 640 480 4 0]).buffer.frame_ = 0
    ∧ ((run (Buffer.new 0) [Op.allocateFrame 640 480 4 0]).buffer.allocateFrame 640 480 4 0).1
        = Outcome.returned false
    ∧ ((run (Buffer.new 0) [Op.allocateFrame 640 480 4 0]).buffer.allocateFrame 640 480 4 0).2.1
        = Buffer.new 0 :=
  ⟨by decide,
    (allocateFrame_malloc_null 0 [Op.allocateFrame 640 480 4 0] 640 480 4 (by decide)).1,
    by decide⟩

/-- C10: `allocateFrame` throws exactly when the buffer is already allocated, whatever the
arguments.  On an unallocated buffer, for all integers `w`, `h`, `elem` (zero and negative
ones included) it returns `true` exactly when `malloc` returns a non-null pointer, and it then
records `w`, `h`, `elem` as given and, as `frame_len_`, the `int` product `w * h * elem`
converted to `size_t`: the residue modulo `2 ^ 64` of the one `int` value `m` that agrees with
`w * h * elem` modulo `2 ^ 32`, hence of `w * h * elem` itself when the products fit in an
`int`; the buffer so obtained throws on every later `allocateFrame`. -/
theorem allocateFrame_raises_iff_allocated (b : Buffer) (w h elem : Int) (p : Nat) :
    ((∃ msg, (b.allocateFrame w h elem p).1 = Outcome.raised msg) ↔ b.frame_ ≠ 0)
    ∧ (b.frame_ = 0 →
        (b.allocateFrame w h elem p).1 = Outcome.returned (decide (p ≠ 0))
        ∧ (p ≠ 0 →
            (b.allocateFrame w h elem p).2.1.frame_ = p
            ∧ (b.allocateFrame w h elem p).2.1.width_ = w
            ∧ (b.allocateFrame w h elem p).2.1.height_ = h
            ∧ (b.allocateFrame w h elem p).2.1.elem_size_ = elem
            ∧ (b.allocateFrame w h elem p).2.1.padding_ = b.padding_
            ∧ (∃ m : Int, -(2 ^ 31) ≤ m ∧ m < 2 ^ 31
                ∧ m % 2 ^ 32 = (w * h * elem) % 2 ^ 32
                ∧ ((b.allocateFrame w h elem p).2.1.frame_len_ : Int) = m % 2 ^ 64)
            ∧ (InInt (w * h) → InInt (w * h * elem) →
                ((b.allocateFrame w h elem p).2.1.frame_len_ : Int) = (w * h * elem) % 2 ^ 64)
            ∧ (b.allocateFrame w h elem p).2.2
                = [HeapEvent.malloc (b.allocateFrame w h elem p).2.1.frame_len_ p]
            ∧ ∀ (w2 h2 elem2 : Int) (p2 : Nat),
                ((b.allocateFrame w h elem p).2.1.allocateFrame w2 h2 elem2 p2).1
                  = Outcome.raised Buffer.reallocMessage)) := by
  refine ⟨?_, ?_⟩
  · by_cases hb : b.frame_ = 0
    · by_cases hp : p = 0
      · subst hp
        simp [Buffer.allocateFrame_of_null b w h elem hb, hb]
      · simp [Buffer.allocateFrame_of_pointer b w h elem p hb hp, hb]
    · simp [Buffer.allocateFrame_of_allocated b w h elem p hb, hb]
  · intro hb
    by_cases hp : p = 0
    · subst hp
      simp [Buffer.allocateFrame_of_null b w h elem hb]
    · refine ⟨by simp [Buffer.allocateFrame_of_pointer b w h elem p hb hp, hp], ?_⟩
      intro _
      rw [Buffer.allocateFrame_of_pointer b w h elem p hb hp]
      refine ⟨rfl, rfl, rfl, rfl, rfl, ?_, ?_, rfl, ?_⟩
      · obtain ⟨hin, hmod⟩ := imul_imul_spec w h elem
        exact ⟨imul (imul w h) elem, hin.1, hin.2, hmod, toSizeT_cast _⟩
      · intro h1 h2
        show ((toSizeT (imul (imul w h) elem) : Nat) : Int) = _
        rw [toSizeT_cast, imul_imul_of_inInt w h elem h1 h2]
      · intro w2 h2 elem2 p2
        rw [Buffer.allocateFrame_of_allocated _ w2 h2 elem2 p2 hp]

/-- C10 at concrete arguments.  `allocateFrame(640,480,4)` records the length 1228800, the
product; `allocateFrame(0,0,0)` with a non-null `malloc(0)` gives an allocated buffer of length
0 on which a later `allocateFrame(640,480,4)` throws; negative arguments are accepted,
`allocateFrame(-2,3,5)` recording `2 ^ 64 - 30`; and `allocateFrame(32768,32769,4)`, whose
product leaves the `int` range, records 131072. -/
theorem allocateFrame_raises_iff_allocated_witness :
    (((Buffer.new 0).allocateFrame 640 480 4 4096).2.1.frame_len_ : Int) = 1228800
    ∧ ((Buffer.new 0).allocateFrame 640 480 4 4096).2.1.frameInfo []
        = (3, [lua.Value.number 640, lua.Value.number 480, lua.Value.number 4])
    ∧ ((Buffer.new 0).allocateFrame 0 0 0 4096).2.1
        = { frame_ := 4096, frame_len_ := 0, width_ := 0, height_ := 0, elem_size_ := 0,
            padding_ := 0 }
    ∧ (((Buffer.new 0).allocateFrame 0 0 0 4096).2.1.allocateFrame 640 480 4 8192).1
        = Outcome.raised Buffer.reallocMessage
    ∧ ((Buffer.new 0).allocateFrame (-2) 3 5 4096).1 = Outcome.returned true
    ∧ ((Buffer.new 0).allocateFrame (-2) 3 5 4096).2.1.frame_len_ = 18446744073709551586
    ∧ ((Buffer.new 0).allocateFrame 32768 32769 4 4096).2.1.frame_len_ = 131072 := by
  have h := ((allocateFrame_raises_iff_allocated (Buffer.new 0) 640 480 4 4096).2 rfl).2
    (by decide)
  have h0 := ((allocateFrame_raises_iff_allocated (Buffer.new 0) 0 0 0 4096).2 rfl).2
    (by decide)
  refine ⟨?_, by decide, by decide, ?_, by decide, by decide, by decide⟩
  · exact (h.2.2.2.2.2.2.1 (by decide) (by decide)).trans (by decide)
  · exact h0.2.2.2.2.2.2.2.2 640 480 4 8192

/-- C5: after construction and any calls `ops`, if no `allocateFrame` has returned `true`
the buffer is unallocated and empty: `frameData` pushes nothing and returns 0, `frameSize()`
is 0 and `frameInfo()` reports 0, 0, 0.  `frameData` returns 1 exactly when some
`allocateFrame` has returned `true`, and what it pushes then is the non-null pointer that
`malloc` returned. -/
theorem unallocated_buffer_is_empty (padding : Int) (ops : List Op) (L : lua.State) :
    (allocOk ∉ (run (Buffer.new padding) ops).obs →
        (run (Buffer.new padding) ops).buffer.frame_ = 0
        ∧ (run (Buffer.new padding) ops).buffer.frameData L = (0, L)
        ∧ (run (Buffer.new padding) ops).buffer.frameSize = 0
        ∧ (run (Buffer.new padding) ops).buffer.frameInfo []
            = (3, [lua.Value.number 0, lua.Value.number 0, lua.Value.number 0]))
    ∧ (((run (Buffer.new padding) ops).buffer.frameData L).1 = 1
        ↔ allocOk ∈ (run (Buffer.new padding) ops).obs)
    ∧ (allocOk ∈ (run (Buffer.new padding) ops).obs →
        (run (Buffer.new padding) ops).buffer.frameData L
            = (1, L ++ [lua.Value.lightuserdata (run (Buffer.new padding) ops).buffer.frame_])
        ∧ (run (Buffer.new padding) ops).buffer.frame_ ≠ 0
        ∧ ∃ len, HeapEvent.malloc len (run (Buffer.new padding) ops).buffer.frame_
            ∈ (run (Buffer.new padding) ops).heap) := by
  rcases run_new_cases padding ops with ⟨i1, i2, _, _⟩ | ⟨i1, i2, _, _, i5⟩
  · have hnot : allocOk ∉ (run (Buffer.new padding) ops).obs := List.count_eq_zero.1 i2
    have hfd : (run (Buffer.new padding) ops).buffer.frameData L = (0, L) := by
      rw [i1]
      rfl
    refine ⟨fun _ => ⟨?_, hfd, ?_, ?_⟩, ?_, fun hin => absurd hin hnot⟩
    · rw [i1]
      rfl
    · rw [i1]
      rfl
    · rw [i1]
      rfl
    · rw [hfd]
      exact ⟨fun h => absurd h (Nat.zero_ne_one), fun hin => absurd hin hnot⟩
  · have hin : allocOk ∈ (run (Buffer.new padding) ops).obs := by
      apply List.count_pos_iff.1
      omega
    refine ⟨fun hnot => absurd hin hnot, ?_, fun _ => ⟨?_, i1, i5⟩⟩
    · simp [hin, Buffer.frameData, i1]
    · simp [Buffer.frameData, i1, lua.pushlightuserdata]

/-- C5 at concrete inputs: a new buffer after a failed allocation and two accessor calls is
empty; after a successful allocation `frameData` pushes the pointer. -/
theorem unallocated_buffer_is_empty_witness :
    (run (Buffer.new 0) [Op.allocateFrame 640 480 4 0, Op.frameData, Op.frameInfo]).buffer.frameData
        [] = (0, [])
    ∧ (run (Buffer.new 0) [Op.allocateFrame 640 480 4 4096]).buffer.frameData []
        = (1, [lua.Value.lightuserdata 4096]) :=
  ⟨((unallocated_buffer_is_empty 0 [Op.allocateFrame 640 480 4 0, Op.frameData, Op.frameInfo]
      []).1 (by decide)).2.1,
    by decide⟩

/-- C4: over any sequence of calls on a new buffer, at most one `allocateFrame` returns
`true`; if the call made after the calls `pre` returns `true`, then at every later point of
the sequence the object is the one that call left, so `frameSize()` and `frameInfo()` give
the length and the `w`, `h`, `elem` it recorded; and the three accessors change no data
member and call no allocator function. -/
theorem buffer_allocated_at_most_once (padding : Int) (ops : List Op) :
    (run (Buffer.new padding) ops).obs.count allocOk ≤ 1
    ∧ (∀ (pre mid post : List Op) (w h elem : Int) (p : Nat),
        ops = pre ++ Op.allocateFrame w h elem p :: (mid ++ post) →
        (step (run (Buffer.new padding) pre).buffer (Op.allocateFrame w h elem p)).1 = allocOk →
          (run (Buffer.new padding) (pre ++ Op.allocateFrame w h elem p :: mid)).buffer
            = (step (run (Buffer.new padding) pre).buffer (Op.allocateFrame w h elem p)).2.1
          ∧ (run (Buffer.new padding) (pre ++ Op.allocateFrame w h elem p :: mid)).buffer.frameSize
            = toSizeT (imul (imul w h) elem)
          ∧ (run (Buffer.new padding)
                (pre ++ Op.allocateFrame w h elem p :: mid)).buffer.frameInfo []
            = (3, [lua.Value.number w, lua.Value.number h, lua.Value.number elem])
          ∧ (run (Buffer.new padding) ops).obs.count allocOk = 1)
    ∧ (∀ (b : Buffer) (op : Op), op = Op.frameData ∨ op = Op.frameSize ∨ op = Op.frameInfo →
        (step b op).2.1 = b ∧ (step b op).2.2 = []) := by
  refine ⟨?_, ?_, ?_⟩
  · rcases run_new_cases padding ops with ⟨_, i2, _⟩ | ⟨_, i2, _⟩ <;> omega
  · intro pre mid post w h elem p hops hok
    have hok2 : ((run (Buffer.new padding) pre).buffer.allocateFrame w h elem p).1
        = Outcome.returned true := by
      simpa [step, allocOk] using hok
    obtain ⟨hb, hp⟩ := (Buffer.allocateFrame_ok_iff _ w h elem p).1 hok2
    have hs := step_alloc_pointer _ w h elem p hb hp
    have hmid := run_of_allocated
      (Buffer.mk p (toSizeT (imul (imul w h) elem)) w h elem
        (run (Buffer.new padding) pre).buffer.padding_) mid hp
    have hbuf : (run (Buffer.new padding) (pre ++ Op.allocateFrame w h elem p :: mid)).buffer
        = (step (run (Buffer.new padding) pre).buffer (Op.allocateFrame w h elem p)).2.1 := by
      rw [run_append, run_cons, hs]
      exact hmid.1
    refine ⟨hbuf, ?_, ?_, ?_⟩
    · rw [hbuf, hs]
      rfl
    · rw [hbuf, hs]
      rfl
    · rcases run_new_cases padding ops with ⟨_, i2, _⟩ | ⟨_, i2, _⟩
      · exfalso
        have hmem : allocOk ∈ (run (Buffer.new padding) ops).obs := by
          rw [hops, run_append, run_cons, hs]
          simp
        exact (List.count_eq_zero.1 i2) hmem
      · exact i2
  · intro b op hop
    rcases hop with rfl | rfl | rfl <;> exact ⟨rfl, rfl⟩

/-- C4 at a concrete sequence: a failed allocation, a successful `allocateFrame(640,480,4)`,
then a rejected `allocateFrame(320,240,4)` between accessor calls. -/
theorem buffer_allocated_at_most_once_witness :
    (run (Buffer.new 0)
        [Op.frameInfo, Op.allocateFrame 640 480 4 0, Op.allocateFrame 640 480 4 4096,
          Op.frameSize, Op.allocateFrame 320 240 4 8192, Op.frameInfo]).obs.count allocOk = 1
    ∧ (run (Buffer.new 0)
        [Op.frameInfo, Op.allocateFrame 640 480 4 0, Op.allocateFrame 640 480 4 4096,
          Op.frameSize, Op.allocateFrame 320 240 4 8192]).buffer.frameSize = 1228800 := by
  have h := (buffer_allocated_at_most_once 0
    [Op.frameInfo, Op.allocateFrame 640 480 4 0, Op.allocateFrame 640 480 4 4096,
      Op.frameSize, Op.allocateFrame 320 240 4 8192, Op.frameInfo]).2.1
    [Op.frameInfo, Op.allocateFrame 640 480 4 0] [Op.frameSize, Op.allocateFrame 320 240 4 8192]
    [Op.frameInfo] 640 480 4 4096 rfl (by decide)
  exact ⟨h.2.2.2, h.2.1.trans (by decide)⟩

/-- C9: over a whole lifetime (construction, any calls with any allocator answers,
destruction) the number of `free` calls equals the number of `malloc` calls that returned a
pointer, which is at most one; no call before the destructor frees; the destructor frees
exactly when some `allocateFrame` returned `true`, and what it frees is the pointer that
`malloc` returned. -/
theorem buffer_lifetime_frees_once (padding : Int) (ops : List Op) :
    (lifetime padding ops).countP isFree = (lifetime padding ops).countP isMallocOk
    ∧ (lifetime padding ops).countP isMallocOk ≤ 1
    ∧ (run (Buffer.new padding) ops).heap.countP isFree = 0
    ∧ (allocOk ∉ (run (Buffer.new padding) ops).obs →
        (run (Buffer.new padding) ops).buffer.destroy = []
        ∧ (lifetime padding ops).countP isFree = 0)
    ∧ (allocOk ∈ (run (Buffer.new padding) ops).obs →
        (run (Buffer.new padding) ops).buffer.destroy
            = [HeapEvent.free (run (Buffer.new padding) ops).buffer.frame_]
        ∧ (lifetime padding ops).countP isFree = 1
        ∧ ∃ len, HeapEvent.malloc len (run (Buffer.new padding) ops).buffer.frame_
            ∈ (run (Buffer.new padding) ops).heap) := by
  rcases run_new_cases padding ops with ⟨i1, i2, i3, i4⟩ | ⟨i1, i2, i3, i4, i5⟩
  · have hnot : allocOk ∉ (run (Buffer.new padding) ops).obs := List.count_eq_zero.1 i2
    have hd : (run (Buffer.new padding) ops).buffer.destroy = [] := by
      rw [i1]
      rfl
    have hl : lifetime padding ops = (run (Buffer.new padding) ops).heap := by
      simp [lifetime, hd]
    rw [hl, i3, i4]
    exact ⟨rfl, by omega, rfl, fun _ => ⟨hd, rfl⟩, fun hin => absurd hin hnot⟩
  · have hin : allocOk ∈ (run (Buffer.new padding) ops).obs := by
      apply List.count_pos_iff.1
      omega
    have hd : (run (Buffer.new padding) ops).buffer.destroy
        = [HeapEvent.free (run (Buffer.new padding) ops).buffer.frame_] := by
      simp [Buffer.destroy, i1]
    have hf : (lifetime padding ops).countP isFree = 1 := by
      simp [lifetime, hd, List.countP_append, i4, isFree]
    have hm : (lifetime padding ops).countP isMallocOk = 1 := by
      simp [lifetime, hd, List.countP_append, i3, isMallocOk]
    rw [hf, hm]
    exact ⟨rfl, by omega, i4, fun hnot => absurd hin hnot, fun _ => ⟨hd, rfl, i5⟩⟩

/-- C9 at a concrete lifetime: a failed allocation, a successful one, a rejected one; the
allocator sees two `malloc` calls and one `free`, of the pointer obtained. -/
theorem buffer_lifetime_frees_once_witness :
    lifetime 0 [Op.allocateFrame 640 480 4 0, Op.allocateFrame 640 480 4 4096, Op.frameData,
        Op.allocateFrame 320 240 4 8192]
      = [HeapEvent.malloc 1228800 0, HeapEvent.malloc 1228800 4096, HeapEvent.free 4096]
    ∧ (lifetime 0 [Op.allocateFrame 640 480 4 0, Op.allocateFrame 640 480 4 4096, Op.frameData,
        Op.allocateFrame 320 240 4 8192]).countP isFree = 1 :=
  ⟨by decide,
    ((buffer_lifetime_frees_once 0 [Op.allocateFrame 640 480 4 0,
      Op.allocateFrame 640 480 4 4096, Op.frameData, Op.allocateFrame 320 240 4 8192]).2.2.2.2
      (by decide)).2.1⟩

end video

/-! ## The frame-ready callback -/

namespace dub

namespace Thread

theorem dub_pushcallback_false (t : Thread) (name : String)
    (h : (t.dub_pushcallback name).1 = false) : t.dub_pushcallback name = (false, t) := by
  unfold dub_pushcallback at h ⊢
  cases hl : t.callbacks.lookup name with
  | none => rfl
  | some f => simp [hl] at h

theorem dub_pushcallback_registered (t : Thread) (name : String) (f : Nat)
    (h : t.callbacks.lookup name = some f) :
    t.dub_pushcallback name
      = (true, { t with dub_L := t.dub_L ++ [lua.Value.func f, lua.Value.userdata t.self] }) := by
  simp [dub_pushcallback, h]

theorem lookup_register (t : Thread) (name : String) (f : Nat) :
    (t.register name f).callbacks.lookup name = some f := by
  simp [register, List.lookup]

/-- After `<func> <self>` has been pushed, `dub_call(1, 0)` invokes the function once with
`self`, pops both values and pushes nothing, whatever the function returns. -/
theorem dub_call_method (t : Thread) (f : Nat) (results : List lua.Value) :
    ({ t with dub_L := t.dub_L ++ [lua.Value.func f, lua.Value.userdata t.self] } : Thread).dub_call
        1 0 results
      = { t with calls := t.calls
            ++ [{ func := f, args := [lua.Value.userdata t.self], nresults := 0 }] } := by
  simp [dub_call, adjustResults]

end Thread

end dub

theorem camera_newFrame_of_registered (t : dub.Thread) (f : Nat)
    (results : List lua.Value) (h : t.callbacks.lookup "newFrame" = some f) :
    video.Camera.newFrame t results
      = { t with calls := t.calls
            ++ [{ func := f, args := [lua.Value.userdata t.self], nresults := 0 }] } := by
  unfold video.Camera.newFrame
  rw [dub.Thread.dub_pushcallback_registered t "newFrame" f h]
  exact dub.Thread.dub_call_method t f results

theorem video_decoder_newFrame_of_registered (t : dub.Thread) (f : Nat)
    (results : List lua.Value) (h : t.callbacks.lookup "newFrame" = some f) :
    video.Decoder.newFrame t results
      = { t with calls := t.calls
            ++ [{ func := f, args := [lua.Value.userdata t.self], nresults := 0 }] } := by
  unfold video.Decoder.newFrame
  rw [dub.Thread.dub_pushcallback_registered t "newFrame" f h]
  exact dub.Thread.dub_call_method t f results

theorem media_decoder_newFrame_of_registered (t : dub.Thread) (f : Nat)
    (results : List lua.Value) (h : t.callbacks.lookup "newFrame" = some f) :
    media.Decoder.newFrame t results
      = { t with calls := t.calls
            ++ [{ func := f, args := [lua.Value.userdata t.self], nresults := 0 }] } := by
  unfold media.Decoder.newFrame
  rw [dub.Thread.dub_pushcallback_registered t "newFrame" f h]
  exact dub.Thread.dub_call_method t f results

theorem camera_newFrame_of_unregistered (t : dub.Thread) (results : List lua.Value)
    (h : (t.dub_pushcallback "newFrame").1 = false) : video.Camera.newFrame t results = t := by
  unfold video.Camera.newFrame
  rw [dub.Thread.dub_pushcallback_false t "newFrame" h]
  rfl

theorem video_decoder_newFrame_of_unregistered (t : dub.Thread) (results : List lua.Value)
    (h : (t.dub_pushcallback "newFrame").1 = false) : video.Decoder.newFrame t results = t := by
  unfold video.Decoder.newFrame
  rw [dub.Thread.dub_pushcallback_false t "newFrame" h]
  rfl

theorem media_decoder_newFrame_of_unregistered (t : dub.Thread) (results : List lua.Value)
    (h : (t.dub_pushcallback "newFrame").1 = false) : media.Decoder.newFrame t results = t := by
  unfold media.Decoder.newFrame
  rw [dub.Thread.dub_pushcallback_false t "newFrame" h]
  rfl

/-- C6: for `Camera`, `video::Decoder` and `media::Decoder`, when `dub_pushcallback("newFrame")`
yields `false`, `newFrame()` leaves the object exactly as it was: no Lua function is called,
the stack is untouched and nothing about the event is kept.  Hence, if an observer `f` is
registered afterwards, the next `newFrame()` adds exactly one call, of `f`, to the calls made
before. -/
theorem newFrame_without_observer (t : dub.Thread) (results results2 : List lua.Value)
    (f : Nat) (hno : (t.dub_pushcallback "newFrame").1 = false) :
    (video.Camera.newFrame t results = t
      ∧ video.Decoder.newFrame t results = t
      ∧ media.Decoder.newFrame t results = t)
    ∧ ((video.Camera.newFrame ((video.Camera.newFrame t results).register "newFrame" f)
          results2).calls
        = t.calls ++ [{ func := f, args := [lua.Value.userdata t.self], nresults := 0 }]
      ∧ (video.Decoder.newFrame ((video.Decoder.newFrame t results).register "newFrame" f)
          results2).calls
        = t.calls ++ [{ func := f, args := [lua.Value.userdata t.self], nresults := 0 }]
      ∧ (media.Decoder.newFrame ((media.Decoder.newFrame t results).register "newFrame" f)
          results2).calls
        = t.calls ++ [{ func := f, args := [lua.Value.userdata t.self], nresults := 0 }]) := by
  have h1 := camera_newFrame_of_unregistered t results hno
  have h2 := video_decoder_newFrame_of_unregistered t results hno
  have h3 := media_decoder_newFrame_of_unregistered t results hno
  have hr := dub.Thread.lookup_register t "newFrame" f
  refine ⟨⟨h1, h2, h3⟩, ?_, ?_, ?_⟩
  · rw [h1, camera_newFrame_of_registered _ f results2 hr]
    rfl
  · rw [h2, video_decoder_newFrame_of_registered _ f results2 hr]
    rfl
  · rw [h3, media_decoder_newFrame_of_registered _ f results2 hr]
    rfl

/-- C6 at a concrete object: only a `start` function is registered and one call was made
earlier; three `newFrame()` events are dropped, and after registration one event gives one
call. -/
theorem newFrame_without_observer_witness :
    video.Camera.newFrame
        { self := 9, callbacks := [("start", 5)], dub_L := [],
          calls := [{ func := 5, args := [lua.Value.userdata 9], nresults := 0 }] } []
      = { self := 9, callbacks := [("start", 5)], dub_L := [],
          calls := [{ func := 5, args := [lua.Value.userdata 9], nresults := 0 }] }
    ∧ (video.Camera.newFrame
        ((video.Camera.newFrame
          { self := 9, callbacks := [("start", 5)], dub_L := [],
            calls := [{ func := 5, args := [lua.Value.userdata 9], nresults := 0 }] }
          []).register "newFrame" 7) []).calls
      = [{ func := 5, args := [lua.Value.userdata 9], nresults := 0 },
         { func := 7, args := [lua.Value.userdata 9], nresults := 0 }] := by
  have h := newFrame_without_observer
    { self := 9, callbacks := [("start", 5)], dub_L := [],
      calls := [{ func := 5, args := [lua.Value.userdata 9], nresults := 0 }] } [] [] 7
    (by decide)
  exact ⟨h.1.1, h.2.1⟩

/-- C7, as amended: for `Camera`, `video::Decoder` and `media::Decoder`, when a Lua function
`f` is registered as `newFrame`, one `newFrame()` invocation calls `f` exactly once, with the
object itself (`self`) as its only argument and zero results asked for: the calls made grow
by that single call, and the Lua stack and the registrations are as before, whatever `f`
returns. -/
theorem newFrame_calls_observer_once (t : dub.Thread) (results : List lua.Value) (f : Nat)
    (hreg : t.callbacks.lookup "newFrame" = some f) :
    (t.dub_pushcallback "newFrame").1 = true
    ∧ video.Camera.newFrame t results
        = { t with calls := t.calls
              ++ [{ func := f, args := [lua.Value.userdata t.self], nresults := 0 }] }
    ∧ video.Decoder.newFrame t results
        = { t with calls := t.calls
              ++ [{ func := f, args := [lua.Value.userdata t.self], nresults := 0 }] }
    ∧ media.Decoder.newFrame t results
        = { t with calls := t.calls
              ++ [{ func := f, args := [lua.Value.userdata t.self], nresults := 0 }] }
    ∧ (video.Camera.newFrame t results).calls.length = t.calls.length + 1
    ∧ (video.Decoder.newFrame t results).calls.length = t.calls.length + 1
    ∧ (media.Decoder.newFrame t results).calls.length = t.calls.length + 1 := by
  have h1 := camera_newFrame_of_registered t f results hreg
  have h2 := video_decoder_newFrame_of_registered t f results hreg
  have h3 := media_decoder_newFrame_of_registered t f results hreg
  refine ⟨?_, h1, h2, h3, ?_, ?_, ?_⟩
  · rw [dub.Thread.dub_pushcallback_registered t "newFrame" f hreg]
  · rw [h1]
    simp
  · rw [h2]
    simp
  · rw [h3]
    simp

/-- C7 at a concrete object: the observer 7 is registered, it returns a value, and one
`newFrame()` records one call of 7 and leaves the stack empty. -/
theorem newFrame_calls_observer_once_witness :
    media.Decoder.newFrame
        { self := 9, callbacks := [("start", 5), ("newFrame", 7)], dub_L := [], calls := [] }
        [lua.Value.number 3]
      = { self := 9, callbacks := [("start", 5), ("newFrame", 7)], dub_L := [],
          calls := [{ func := 7, args := [lua.Value.userdata 9], nresults := 0 }] } :=
  (newFrame_calls_observer_once
    { self := 9, callbacks := [("start", 5), ("newFrame", 7)], dub_L := [], calls := [] }
    [lua.Value.number 3] 7 (by decide)).2.2.2.1

/-- C7, counterexample to "with no arguments": the observer 7 is registered on the object 9;
`newFrame()` of each of the three classes makes one call of 7, and the argument list of that
call is the object itself, not the empty list. -/
theorem newFrame_observer_receives_self :
    (video.Camera.newFrame
        { self := 9, callbacks := [("newFrame", 7)], dub_L := [], calls := [] } []).calls
      = [{ func := 7, args := [lua.Value.userdata 9], nresults := 0 }]
    ∧ (video.Decoder.newFrame
        { self := 9, callbacks := [("newFrame", 7)], dub_L := [], calls := [] } []).calls
      = [{ func := 7, args := [lua.Value.userdata 9], nresults := 0 }]
    ∧ (media.Decoder.newFrame
        { self := 9, callbacks := [("newFrame", 7)], dub_L := [], calls := [] } []).calls
      = [{ func := 7, args := [lua.Value.userdata 9], nresults := 0 }]
    ∧ (video.Camera.newFrame
        { self := 9, callbacks := [("newFrame", 7)], dub_L := [], calls := [] } []).calls
      ≠ [{ func := 7, args := [], nresults := 0 }]
    ∧ (video.Decoder.newFrame
        { self := 9, callbacks := [("newFrame", 7)], dub_L := [], calls := [] } []).calls
      ≠ [{ func := 7, args := [], nresults := 0 }]
    ∧ (media.Decoder.newFrame
        { self := 9, callbacks := [("newFrame", 7)], dub_L := [], calls := [] } []).calls
      ≠ [{ func := 7, args := [], nresults := 0 }] := by
  decide

/-! ## Pull-driven decoding -/

namespace capture

namespace Source

/-- Every `nextFrame()` call on a source that is not `Stopped` ends. -/
theorem nextFrame_isSome (policy : ImagePolicy) (s : Source) (results : List lua.Value)
    (h : s.state ≠ Lifecycle.Stopped) : (nextFrame policy s results).isSome = true := by
  unfold nextFrame
  cases hs : s.state with
  | Stopped => exact absurd hs h
  | Running => cases s.asset <;> rfl
  | Idle => cases s.asset <;> rfl

end Source

end capture
